import Mathlib

/-!
Verification of `src/dictionary.rs` from the weedle WebIDL parser:
the `DictionaryMember` data record and its `Parse` implementation.

The dictionary-member parser is built on six collaborator parsers
(extended-attribute list, the `required` keyword, type, identifier,
default clause, semicolon) that live outside the verified fragment.
We embed `DictionaryMember::parse` generically over a record of those
collaborators, mirroring the Rust control flow statement by statement,
and additionally give a concrete token-level instantiation of the
collaborators (modelled from the spec) so that every property can be
evaluated on concrete inputs.

Collaborator contract (spec section 6): the optional collaborators
("given a cursor, return (remaining cursor, value-or-absence)") are
total functions, matching weedle's `opt` combinator which backtracks
instead of failing; the mandatory collaborators (type, identifier,
terminator) may fail with an error value.
-/

namespace Weedle

/-- The sole entity: a parsed dictionary member, mirroring the Rust
struct `DictionaryMember` field for field (`attributes`, `required`,
`type_`, `identifier`, `default`, `semi_colon`). The value types of the
fields are opaque to this fragment, so they are type parameters. -/
structure DictionaryMember (attrs req ty idt dflt semi : Type) where
  attributes : Option attrs
  required : Option req
  type_ : ty
  identifier : idt
  default : Option dflt
  semi_colon : semi
deriving DecidableEq, Repr

/-- The collaborator parsers consumed by `DictionaryMember::parse`.
`σ` is the cursor type (Rust: a string slice) and `ε` the error type.
Optional collaborators are total (weedle implements `Parse` for
`Option<T>` via nom's `opt`, which never fails on its own); mandatory
collaborators return `Except`. -/
structure Collabs (σ ε attrs req ty idt dflt semi : Type) where
  parseOptAttrs : σ → σ × Option attrs
  parseOptRequired : σ → σ × Option req
  parseType : σ → Except ε (σ × ty)
  parseIdentifier : σ → Except ε (σ × idt)
  parseOptDefault : σ → σ × Option dflt
  parseSemiColon : σ → Except ε (σ × semi)

variable {σ ε attrs req ty idt dflt semi : Type}

/-- Shallow embedding of `DictionaryMember::parse` (src/dictionary.rs
lines 37 to 93). Each `let (i, v) := ...` mirrors a
`let (input, v) = ...::parse(input)?;` of the source; the `match` on
`Except` results mirrors the `?` operator on the mandatory sub-parses;
the branch on `required.isSome` mirrors `if required.is_some()`, and
`merged_attributes` is the source's merge `match` verbatim. -/
def DictionaryMember.parse (C : Collabs σ ε attrs req ty idt dflt semi) (input : σ) :
    Except ε (σ × DictionaryMember attrs req ty idt dflt semi) :=
  let (i1, attributes) := C.parseOptAttrs input
  let (i2, required) := C.parseOptRequired i1
  if required.isSome then
    let (i3, type_attributes) := C.parseOptAttrs i2
    match C.parseType i3 with
    | .error e => .error e
    | .ok (i4, type_) =>
      match C.parseIdentifier i4 with
      | .error e => .error e
      | .ok (i5, identifier) =>
        match C.parseSemiColon i5 with
        | .error e => .error e
        | .ok (i6, semi_colon) =>
          let merged_attributes :=
            match attributes, type_attributes with
            | _, some ta => some ta
            | ma, none => ma
          .ok (i6,
            { attributes := merged_attributes
              required := required
              type_ := type_
              identifier := identifier
              default := none
              semi_colon := semi_colon })
  else
    match C.parseType i2 with
    | .error e => .error e
    | .ok (i4, type_) =>
      match C.parseIdentifier i4 with
      | .error e => .error e
      | .ok (i5, identifier) =>
        let (i6, default) := C.parseOptDefault i5
        match C.parseSemiColon i6 with
        | .error e => .error e
        | .ok (i7, semi_colon) =>
          .ok (i7,
            { attributes := attributes
              required := required
              type_ := type_
              identifier := identifier
              default := default
              semi_colon := semi_colon })

/-- The required path, entered after the `required` keyword was
consumed leaving cursor `s2`, fails at one of its mandatory sub-parses
with error `e` (the earlier sub-parses of the path succeeding). -/
def RequiredPathFails (C : Collabs σ ε attrs req ty idt dflt semi)
    (s2 : σ) (e : ε) : Prop :=
  ∃ s3 ta, C.parseOptAttrs s2 = (s3, ta) ∧
    (C.parseType s3 = .error e ∨
      ∃ s4 tyv, C.parseType s3 = Except.ok (s4, tyv) ∧
        (C.parseIdentifier s4 = .error e ∨
          ∃ s5 idv, C.parseIdentifier s4 = Except.ok (s5, idv) ∧
            C.parseSemiColon s5 = .error e))

/-- The optional path, entered with `required` absent at cursor `s2`,
fails at one of its mandatory sub-parses with error `e` (the earlier
sub-parses of the path succeeding). -/
def OptionalPathFails (C : Collabs σ ε attrs req ty idt dflt semi)
    (s2 : σ) (e : ε) : Prop :=
  C.parseType s2 = .error e ∨
    ∃ s4 tyv, C.parseType s2 = Except.ok (s4, tyv) ∧
      (C.parseIdentifier s4 = .error e ∨
        ∃ s5 idv s6 d, C.parseIdentifier s4 = Except.ok (s5, idv) ∧
          C.parseOptDefault s5 = (s6, d) ∧ C.parseSemiColon s6 = .error e)

end Weedle

namespace Weedle.Model

/-- Tokens of the concrete cursor model. The collaborator parsers are
external to the verified fragment, so their input is modelled at token
granularity: identifiers and type words, the `required` keyword,
brackets and comma of an extended-attribute list, the `=` of a default
clause, and the semicolon terminator. -/
inductive Tok : Type
  | ident : String → Tok
  | kwRequired : Tok
  | lbrack : Tok
  | rbrack : Tok
  | comma : Tok
  | eq : Tok
  | semi : Tok
deriving DecidableEq, Repr

/-- Which mandatory sub-grammar failed (spec section 7: the error
taxonomy is "expected-construct-not-found" parameterized by the
mandatory sub-grammar). -/
inductive ErrTag : Type
  | typeExpected : ErrTag
  | identExpected : ErrTag
  | semiExpected : ErrTag
deriving DecidableEq, Repr

/-- A parse failure: the sub-grammar that failed and the cursor
position (remaining input) at the point of failure. -/
structure ParseError where
  tag : ErrTag
  pos : List Tok
deriving DecidableEq, Repr

/-- Modelled from the spec: the body of an extended-attribute list
(the external `ExtendedAttributeList` parser is not part of the
fragment). After the opening bracket, names separated by commas up to
the closing bracket; returns the remaining input and the names, or
`none` if the bracketed form is malformed. -/
def parseAttrNames : List Tok → Option (List Tok × List String)
  | Tok.rbrack :: rest => some (rest, [])
  | Tok.ident a :: Tok.rbrack :: rest => some (rest, [a])
  | Tok.ident a :: Tok.comma :: rest =>
      match parseAttrNames rest with
      | some (rest2, names) => some (rest2, a :: names)
      | none => none
  | _ => none

/-- Modelled from the spec: the optional extended-attribute-list
collaborator. A bracketed name list if one starts here; otherwise
absence, consuming nothing (weedle's `opt` backtracking). -/
def parseOptAttrsW : List Tok → List Tok × Option (List String)
  | Tok.lbrack :: rest =>
      match parseAttrNames rest with
      | some (rest2, names) => (rest2, some names)
      | none => (Tok.lbrack :: rest, none)
  | input => (input, none)

/-- Modelled from the spec: the optional `required` keyword
collaborator; presence carries no payload beyond its span. -/
def parseOptRequiredW : List Tok → List Tok × Option Unit
  | Tok.kwRequired :: rest => (rest, some ())
  | input => (input, none)

/-- Modelled from the spec: the mandatory type collaborator (the type
is opaque to this fragment: one word). Fails with a type-expected
error at the current position otherwise. -/
def parseTypeW : List Tok → Except ParseError (List Tok × String)
  | Tok.ident s :: rest => .ok (rest, s)
  | input => .error ⟨ErrTag.typeExpected, input⟩

/-- Modelled from the spec: the mandatory identifier collaborator. -/
def parseIdentifierW : List Tok → Except ParseError (List Tok × String)
  | Tok.ident s :: rest => .ok (rest, s)
  | input => .error ⟨ErrTag.identExpected, input⟩

/-- Modelled from the spec: the optional default-clause collaborator:
an `=` followed by a value, or absence consuming nothing. -/
def parseOptDefaultW : List Tok → List Tok × Option String
  | Tok.eq :: Tok.ident v :: rest => (rest, some v)
  | input => (input, none)

/-- Modelled from the spec: the mandatory statement-terminator
collaborator. -/
def parseSemiColonW : List Tok → Except ParseError (List Tok × Unit)
  | Tok.semi :: rest => .ok (rest, ())
  | input => .error ⟨ErrTag.semiExpected, input⟩

/-- The concrete collaborator bundle over the token cursor. -/
def weedleC : Collabs (List Tok) ParseError (List String) Unit String String String Unit where
  parseOptAttrs := parseOptAttrsW
  parseOptRequired := parseOptRequiredW
  parseType := parseTypeW
  parseIdentifier := parseIdentifierW
  parseOptDefault := parseOptDefaultW
  parseSemiColon := parseSemiColonW

/-- A dictionary member over the concrete value types. -/
abbrev WMember := DictionaryMember (List String) Unit String String String Unit

/-- Serialization of the names of an extended-attribute list, comma
separated, used only for the round-trip property. -/
def writeAttrNames : List String → List Tok
  | [] => []
  | [a] => [Tok.ident a]
  | a :: b :: rest => Tok.ident a :: Tok.comma :: writeAttrNames (b :: rest)

/-- Serialization of an optional extended-attribute list span. -/
def writeOptAttrs : Option (List String) → List Tok
  | none => []
  | some names => Tok.lbrack :: (writeAttrNames names ++ [Tok.rbrack])

/-- Re-serialize a member's constituent spans in declaration order
with the original separators. -/
def writeMember (m : WMember) : List Tok :=
  writeOptAttrs m.attributes ++
    (match m.required with | some _ => [Tok.kwRequired] | none => []) ++
    [Tok.ident m.type_, Tok.ident m.identifier] ++
    (match m.default with | some v => [Tok.eq, Tok.ident v] | none => []) ++
    [Tok.semi]

end Weedle.Model

namespace Weedle

variable {σ ε attrs req ty idt dflt semi : Type}

/-- Run lemma, required path, all mandatory sub-parses succeeding:
the parse succeeds and the fields are assembled with the source's
merge rule, `default` fixed to absent. -/
theorem parse_ok_required (C : Collabs σ ε attrs req ty idt dflt semi)
    {input s1 s2 s3 s4 s5 s6 : σ} {ma ta : Option attrs} {r : req}
    {tyv : ty} {idv : idt} {sc : semi}
    (hA : C.parseOptAttrs input = (s1, ma))
    (hR : C.parseOptRequired s1 = (s2, some r))
    (hTA : C.parseOptAttrs s2 = (s3, ta))
    (hT : C.parseType s3 = .ok (s4, tyv))
    (hI : C.parseIdentifier s4 = .ok (s5, idv))
    (hS : C.parseSemiColon s5 = .ok (s6, sc)) :
    DictionaryMember.parse C input =
      .ok (s6,
        { attributes := (match ma, ta with | _, some b => some b | a, none => a)
          required := some r
          type_ := tyv
          identifier := idv
          default := none
          semi_colon := sc }) := by
  cases ta with
  | none => simp [DictionaryMember.parse, hA, hR, hTA, hT, hI, hS]
  | some b => simp [DictionaryMember.parse, hA, hR, hTA, hT, hI, hS]

/-- Run lemma, optional path, all mandatory sub-parses succeeding:
the parse succeeds, `attributes` is the member-level list, `required`
absent, `default` whatever the optional default sub-parse produced. -/
theorem parse_ok_optional (C : Collabs σ ε attrs req ty idt dflt semi)
    {input s1 s2 s4 s5 s6 s7 : σ} {ma : Option attrs}
    {tyv : ty} {idv : idt} {d : Option dflt} {sc : semi}
    (hA : C.parseOptAttrs input = (s1, ma))
    (hR : C.parseOptRequired s1 = (s2, none))
    (hT : C.parseType s2 = .ok (s4, tyv))
    (hI : C.parseIdentifier s4 = .ok (s5, idv))
    (hD : C.parseOptDefault s5 = (s6, d))
    (hS : C.parseSemiColon s6 = .ok (s7, sc)) :
    DictionaryMember.parse C input =
      .ok (s7,
        { attributes := ma
          required := none
          type_ := tyv
          identifier := idv
          default := d
          semi_colon := sc }) := by
  simp [DictionaryMember.parse, hA, hR, hT, hI, hD, hS]

/-- Run lemma, required path, type sub-parse failing: the error is
propagated verbatim. -/
theorem parse_err_req_type (C : Collabs σ ε attrs req ty idt dflt semi)
    {input s1 s2 s3 : σ} {ma ta : Option attrs} {r : req} {e : ε}
    (hA : C.parseOptAttrs input = (s1, ma))
    (hR : C.parseOptRequired s1 = (s2, some r))
    (hTA : C.parseOptAttrs s2 = (s3, ta))
    (hT : C.parseType s3 = .error e) :
    DictionaryMember.parse C input = .error e := by
  simp [DictionaryMember.parse, hA, hR, hTA, hT]

/-- Run lemma, required path, identifier sub-parse failing: the error
is propagated verbatim. -/
theorem parse_err_req_ident (C : Collabs σ ε attrs req ty idt dflt semi)
    {input s1 s2 s3 s4 : σ} {ma ta : Option attrs} {r : req} {tyv : ty} {e : ε}
    (hA : C.parseOptAttrs input = (s1, ma))
    (hR : C.parseOptRequired s1 = (s2, some r))
    (hTA : C.parseOptAttrs s2 = (s3, ta))
    (hT : C.parseType s3 = .ok (s4, tyv))
    (hI : C.parseIdentifier s4 = .error e) :
    DictionaryMember.parse C input = .error e := by
  simp [DictionaryMember.parse, hA, hR, hTA, hT, hI]

/-- Run lemma, required path, terminator sub-parse failing: the error
is propagated verbatim. -/
theorem parse_err_req_semi (C : Collabs σ ε attrs req ty idt dflt semi)
    {input s1 s2 s3 s4 s5 : σ} {ma ta : Option attrs} {r : req}
    {tyv : ty} {idv : idt} {e : ε}
    (hA : C.parseOptAttrs input = (s1, ma))
    (hR : C.parseOptRequired s1 = (s2, some r))
    (hTA : C.parseOptAttrs s2 = (s3, ta))
    (hT : C.parseType s3 = .ok (s4, tyv))
    (hI : C.parseIdentifier s4 = .ok (s5, idv))
    (hS : C.parseSemiColon s5 = .error e) :
    DictionaryMember.parse C input = .error e := by
  simp [DictionaryMember.parse, hA, hR, hTA, hT, hI, hS]

/-- Run lemma, optional path, type sub-parse failing: the error is
propagated verbatim. -/
theorem parse_err_opt_type (C : Collabs σ ε attrs req ty idt dflt semi)
    {input s1 s2 : σ} {ma : Option attrs} {e : ε}
    (hA : C.parseOptAttrs input = (s1, ma))
    (hR : C.parseOptRequired s1 = (s2, none))
    (hT : C.parseType s2 = .error e) :
    DictionaryMember.parse C input = .error e := by
  simp [DictionaryMember.parse, hA, hR, hT]

/-- Run lemma, optional path, identifier sub-parse failing: the error
is propagated verbatim. -/
theorem parse_err_opt_ident (C : Collabs σ ε attrs req ty idt dflt semi)
    {input s1 s2 s4 : σ} {ma : Option attrs} {tyv : ty} {e : ε}
    (hA : C.parseOptAttrs input = (s1, ma))
    (hR : C.parseOptRequired s1 = (s2, none))
    (hT : C.parseType s2 = .ok (s4, tyv))
    (hI : C.parseIdentifier s4 = .error e) :
    DictionaryMember.parse C input = .error e := by
  simp [DictionaryMember.parse, hA, hR, hT, hI]

/-- Run lemma, optional path, terminator sub-parse failing: the error
is propagated verbatim. -/
theorem parse_err_opt_semi (C : Collabs σ ε attrs req ty idt dflt semi)
    {input s1 s2 s4 s5 s6 : σ} {ma : Option attrs}
    {tyv : ty} {idv : idt} {d : Option dflt} {e : ε}
    (hA : C.parseOptAttrs input = (s1, ma))
    (hR : C.parseOptRequired s1 = (s2, none))
    (hT : C.parseType s2 = .ok (s4, tyv))
    (hI : C.parseIdentifier s4 = .ok (s5, idv))
    (hD : C.parseOptDefault s5 = (s6, d))
    (hS : C.parseSemiColon s6 = .error e) :
    DictionaryMember.parse C input = .error e := by
  simp [DictionaryMember.parse, hA, hR, hT, hI, hD, hS]

/-- Exhaustive characterization of a parse run: either it succeeds, or
the returned error is one produced by a mandatory sub-parse (type,
identifier, terminator) at some intermediate cursor. The optional
sub-parses are total functions and contribute no failures. -/
theorem parse_cases (C : Collabs σ ε attrs req ty idt dflt semi) (input : σ) :
    (∃ s m, DictionaryMember.parse C input = .ok (s, m)) ∨
    (∃ s e, DictionaryMember.parse C input = .error e ∧
      (C.parseType s = .error e ∨ C.parseIdentifier s = .error e ∨
        C.parseSemiColon s = .error e)) := by
  rcases hA : C.parseOptAttrs input with ⟨s1, ma⟩
  rcases hR : C.parseOptRequired s1 with ⟨s2, r⟩
  cases r with
  | some rv =>
    rcases hTA : C.parseOptAttrs s2 with ⟨s3, ta⟩
    cases hT : C.parseType s3 with
    | error e =>
      exact Or.inr ⟨s3, e, parse_err_req_type C hA hR hTA hT, Or.inl hT⟩
    | ok p =>
      obtain ⟨s4, tyv⟩ := p
      cases hI : C.parseIdentifier s4 with
      | error e =>
        exact Or.inr ⟨s4, e, parse_err_req_ident C hA hR hTA hT hI,
          Or.inr (Or.inl hI)⟩
      | ok q =>
        obtain ⟨s5, idv⟩ := q
        cases hS : C.parseSemiColon s5 with
        | error e =>
          exact Or.inr ⟨s5, e, parse_err_req_semi C hA hR hTA hT hI hS,
            Or.inr (Or.inr hS)⟩
        | ok w =>
          obtain ⟨s6, sc⟩ := w
          exact Or.inl ⟨s6, _, parse_ok_required C hA hR hTA hT hI hS⟩
  | none =>
    cases hT : C.parseType s2 with
    | error e =>
      exact Or.inr ⟨s2, e, parse_err_opt_type C hA hR hT, Or.inl hT⟩
    | ok p =>
      obtain ⟨s4, tyv⟩ := p
      cases hI : C.parseIdentifier s4 with
      | error e =>
        exact Or.inr ⟨s4, e, parse_err_opt_ident C hA hR hT hI,
          Or.inr (Or.inl hI)⟩
      | ok q =>
        obtain ⟨s5, idv⟩ := q
        rcases hD : C.parseOptDefault s5 with ⟨s6, d⟩
        cases hS : C.parseSemiColon s6 with
        | error e =>
          exact Or.inr ⟨s6, e, parse_err_opt_semi C hA hR hT hI hD hS,
            Or.inr (Or.inr hS)⟩
        | ok w =>
          obtain ⟨s7, sc⟩ := w
          exact Or.inl ⟨s7, _, parse_ok_optional C hA hR hT hI hD hS⟩

/-- Any successful parse whose result carries the required marker has
no default: the required branch constructs the member with
`default := none`, and on the optional branch the `required` field is
the parsed absence itself. -/
theorem parse_required_default_none (C : Collabs σ ε attrs req ty idt dflt semi)
    (input : σ) {s : σ} {m : DictionaryMember attrs req ty idt dflt semi}
    (h : DictionaryMember.parse C input = .ok (s, m)) :
    m.required.isSome = true → m.default = none := by
  intro hr
  rcases hA : C.parseOptAttrs input with ⟨s1, ma⟩
  rcases hR : C.parseOptRequired s1 with ⟨s2, r⟩
  cases r with
  | some rv =>
    rcases hTA : C.parseOptAttrs s2 with ⟨s3, ta⟩
    cases hT : C.parseType s3 with
    | error e => rw [parse_err_req_type C hA hR hTA hT] at h; exact Except.noConfusion h
    | ok p =>
      obtain ⟨s4, tyv⟩ := p
      cases hI : C.parseIdentifier s4 with
      | error e => rw [parse_err_req_ident C hA hR hTA hT hI] at h; exact Except.noConfusion h
      | ok q =>
        obtain ⟨s5, idv⟩ := q
        cases hS : C.parseSemiColon s5 with
        | error e => rw [parse_err_req_semi C hA hR hTA hT hI hS] at h; exact Except.noConfusion h
        | ok w =>
          obtain ⟨s6, sc⟩ := w
          rw [parse_ok_required C hA hR hTA hT hI hS] at h
          simp only [Except.ok.injEq, Prod.mk.injEq] at h
          obtain ⟨h1, h2⟩ := h
          rw [← h2]
  | none =>
    cases hT : C.parseType s2 with
    | error e => rw [parse_err_opt_type C hA hR hT] at h; exact Except.noConfusion h
    | ok p =>
      obtain ⟨s4, tyv⟩ := p
      cases hI : C.parseIdentifier s4 with
      | error e => rw [parse_err_opt_ident C hA hR hT hI] at h; exact Except.noConfusion h
      | ok q =>
        obtain ⟨s5, idv⟩ := q
        rcases hD : C.parseOptDefault s5 with ⟨s6, d⟩
        cases hS : C.parseSemiColon s6 with
        | error e => rw [parse_err_opt_semi C hA hR hT hI hD hS] at h; exact Except.noConfusion h
        | ok w =>
          obtain ⟨s7, sc⟩ := w
          rw [parse_ok_optional C hA hR hT hI hD hS] at h
          simp only [Except.ok.injEq, Prod.mk.injEq] at h
          obtain ⟨h1, h2⟩ := h
          rw [← h2] at hr
          simp at hr

/-- Claim C2: in every successfully parsed DictionaryMember, if the
required field is present then the default field is absent — the
required branch constructs the result with default none and never
invokes the default sub-parse. -/
theorem claim_c2_required_excludes_default
    (C : Collabs σ ε attrs req ty idt dflt semi) (input : σ)
    {s : σ} {m : DictionaryMember attrs req ty idt dflt semi}
    (h : DictionaryMember.parse C input = .ok (s, m))
    (hr : m.required.isSome = true) :
    m.default = none :=
  parse_required_default_none C input h hr

/-- Claim C1: on the required path, whenever both the member-level and
type-level attribute positions parse (and the mandatory sub-parses
succeed), the parse succeeds with no error or diagnostic, and the
resulting attributes are the type-level list alone whenever one is
present, falling back to the member-level list (possibly absent) when
the type-level list is absent — never a concatenation. -/
theorem claim_c1_required_attr_merge
    (C : Collabs σ ε attrs req ty idt dflt semi)
    (input : σ) {s1 s2 s3 s4 s5 s6 : σ} {ma ta : Option attrs} {r : req}
    {tyv : ty} {idv : idt} {sc : semi}
    (hA : C.parseOptAttrs input = (s1, ma))
    (hR : C.parseOptRequired s1 = (s2, some r))
    (hTA : C.parseOptAttrs s2 = (s3, ta))
    (hT : C.parseType s3 = .ok (s4, tyv))
    (hI : C.parseIdentifier s4 = .ok (s5, idv))
    (hS : C.parseSemiColon s5 = .ok (s6, sc)) :
    ∃ m, DictionaryMember.parse C input = .ok (s6, m) ∧
      (∀ b, ta = some b → m.attributes = some b) ∧
      (ta = none → m.attributes = ma) := by
  refine ⟨_, parse_ok_required C hA hR hTA hT hI hS, ?_, ?_⟩
  · intro b hb
    subst hb
    rfl
  · intro hb
    subst hb
    rfl

/-- Claim C4: an input that gets past the attribute-list, `required`
and type/identifier (and, on the optional path, default) prefix but
whose terminator sub-parse fails is rejected with exactly the
terminator sub-parse's error, reported at the point of failure; the
parse function returns only the error, so the caller's original
cursor is untouched (no partial consumption is observable). -/
theorem claim_c4_missing_terminator
    (C : Collabs σ ε attrs req ty idt dflt semi)
    (input : σ) {s1 s2 s5 : σ} {ma : Option attrs} {r : Option req} {e : ε}
    (hA : C.parseOptAttrs input = (s1, ma))
    (hR : C.parseOptRequired s1 = (s2, r))
    (hPath : match r with
      | some _ => ∃ s3 ta s4 tyv idv, C.parseOptAttrs s2 = (s3, ta) ∧
          C.parseType s3 = Except.ok (s4, tyv) ∧
          C.parseIdentifier s4 = Except.ok (s5, idv)
      | none => ∃ s4 tyv idv sD d, C.parseType s2 = Except.ok (s4, tyv) ∧
          C.parseIdentifier s4 = Except.ok (sD, idv) ∧
          C.parseOptDefault sD = (s5, d))
    (hS : C.parseSemiColon s5 = .error e) :
    DictionaryMember.parse C input = .error e := by
  cases r with
  | some rv =>
    obtain ⟨s3, ta, s4, tyv, idv, hTA, hT, hI⟩ := hPath
    exact parse_err_req_semi C hA hR hTA hT hI hS
  | none =>
    obtain ⟨s4, tyv, idv, sD, d, hT, hI, hD⟩ := hPath
    exact parse_err_opt_semi C hA hR hT hI hD hS

/-- Claim C7: for a successful parse, the attributes field is absent
exactly when no extended-attribute list appeared in either legal
position: neither at the member-level position nor, on the required
path, at the type-level position (the only path where that position
exists). -/
theorem claim_c7_attributes_absent_iff
    (C : Collabs σ ε attrs req ty idt dflt semi)
    (input : σ) {s1 s2 : σ} {ma ta : Option attrs} {r : Option req}
    (hA : C.parseOptAttrs input = (s1, ma))
    (hR : C.parseOptRequired s1 = (s2, r))
    (hPath : match r with
      | some _ => ∃ s3 s4 s5 s6 tyv idv sc, C.parseOptAttrs s2 = (s3, ta) ∧
          C.parseType s3 = Except.ok (s4, tyv) ∧
          C.parseIdentifier s4 = Except.ok (s5, idv) ∧
          C.parseSemiColon s5 = Except.ok (s6, sc)
      | none => ta = none ∧ ∃ s4 s5 s6 s7 tyv idv d sc,
          C.parseType s2 = Except.ok (s4, tyv) ∧
          C.parseIdentifier s4 = Except.ok (s5, idv) ∧
          C.parseOptDefault s5 = (s6, d) ∧
          C.parseSemiColon s6 = Except.ok (s7, sc)) :
    ∃ s m, DictionaryMember.parse C input = .ok (s, m) ∧
      (m.attributes = none ↔ (ma = none ∧ ta = none)) := by
  cases r with
  | some rv =>
    obtain ⟨s3, s4, s5, s6, tyv, idv, sc, hTA, hT, hI, hS⟩ := hPath
    refine ⟨s6, _, parse_ok_required C hA hR hTA hT hI hS, ?_⟩
    cases ta with
    | none => simp
    | some b => simp
  | none =>
    obtain ⟨hta, s4, s5, s6, s7, tyv, idv, d, sc, hT, hI, hD, hS⟩ := hPath
    refine ⟨s7, _, parse_ok_optional C hA hR hT hI hD hS, ?_⟩
    subst hta
    simp

/-- Claim C8: past the required/optional branch point the parser is
committed: a mandatory sub-parse failure on the chosen path is
returned verbatim as the overall result — the input is never retried
under the other interpretation. -/
theorem claim_c8_branch_commitment
    (C : Collabs σ ε attrs req ty idt dflt semi)
    (input : σ) {s1 s2 : σ} {ma : Option attrs} {r : Option req} {e : ε}
    (hA : C.parseOptAttrs input = (s1, ma))
    (hR : C.parseOptRequired s1 = (s2, r))
    (hPath : match r with
      | some _ => RequiredPathFails C s2 e
      | none => OptionalPathFails C s2 e) :
    DictionaryMember.parse C input = .error e := by
  cases r with
  | some rv =>
    obtain ⟨s3, ta, hTA, hFail⟩ := hPath
    rcases hFail with hT | ⟨s4, tyv, hT, hFail⟩
    · exact parse_err_req_type C hA hR hTA hT
    · rcases hFail with hI | ⟨s5, idv, hI, hS⟩
      · exact parse_err_req_ident C hA hR hTA hT hI
      · exact parse_err_req_semi C hA hR hTA hT hI hS
  | none =>
    rcases hPath with hT | ⟨s4, tyv, hT, hFail⟩
    · exact parse_err_opt_type C hA hR hT
    · rcases hFail with hI | ⟨s5, idv, s6, d, hI, hD, hS⟩
      · exact parse_err_opt_ident C hA hR hT hI
      · exact parse_err_opt_semi C hA hR hT hI hD hS

end Weedle

namespace Weedle.Model

theorem claim_c7_witness :
    ∃ (s : List Tok) (m : WMember),
      DictionaryMember.parse weedleC
          [Tok.lbrack, Tok.ident "X", Tok.rbrack, Tok.kwRequired,
           Tok.ident "long", Tok.ident "num", Tok.semi] =
        .ok (s, m) ∧
      (m.attributes = none ↔
        ((some ["X"] : Option (List String)) = none ∧
          (none : Option (List String)) = none)) :=
  claim_c7_attributes_absent_iff weedleC _ rfl rfl
    ⟨_, _, _, _, "long", "num", (), rfl, rfl, rfl, rfl⟩

theorem claim_c8_witness :
    DictionaryMember.parse weedleC [Tok.kwRequired, Tok.semi] =
      .error ⟨ErrTag.typeExpected, [Tok.semi]⟩ :=
  claim_c8_branch_commitment weedleC [Tok.kwRequired, Tok.semi]
    rfl rfl ⟨[Tok.semi], none, rfl, Or.inl rfl⟩

theorem claim_c1_witness :
    ∃ m : WMember,
      DictionaryMember.parse weedleC
          [Tok.lbrack, Tok.ident "A", Tok.rbrack, Tok.kwRequired,
           Tok.lbrack, Tok.ident "B", Tok.rbrack,
           Tok.ident "long", Tok.ident "num", Tok.semi] =
        .ok ([], m) ∧
      (∀ b, (some ["B"] : Option (List String)) = some b → m.attributes = some b) ∧
      ((some ["B"] : Option (List String)) = none → m.attributes = some ["A"]) :=
  claim_c1_required_attr_merge weedleC _ rfl rfl rfl rfl rfl rfl

theorem claim_c4_witness :
    DictionaryMember.parse weedleC [Tok.ident "long", Tok.ident "num"] =
      .error ⟨ErrTag.semiExpected, []⟩ :=
  claim_c4_missing_terminator weedleC [Tok.ident "long", Tok.ident "num"]
    rfl rfl ⟨[Tok.ident "num"], "long", "num", [], none, rfl, rfl, rfl⟩ rfl

theorem claim_c2_witness :
    ({ attributes := none, required := some (), type_ := "long",
       identifier := "num", default := none, semi_colon := () } : WMember).default = none :=
  claim_c2_required_excludes_default weedleC
    [Tok.kwRequired, Tok.ident "long", Tok.ident "num", Tok.semi]
    (show DictionaryMember.parse weedleC
        [Tok.kwRequired, Tok.ident "long", Tok.ident "num", Tok.semi] =
      .ok ([], { attributes := none, required := some (), type_ := "long",
                 identifier := "num", default := none, semi_colon := () }) from rfl)
    rfl

theorem parseTypeW_error {s : List Tok} {e : ParseError}
    (h : parseTypeW s = .error e) : e = ⟨ErrTag.typeExpected, s⟩ := by
  unfold parseTypeW at h
  split at h
  · exact Except.noConfusion h
  · exact (Except.error.inj h).symm

theorem parseIdentifierW_error {s : List Tok} {e : ParseError}
    (h : parseIdentifierW s = .error e) : e = ⟨ErrTag.identExpected, s⟩ := by
  unfold parseIdentifierW at h
  split at h
  · exact Except.noConfusion h
  · exact (Except.error.inj h).symm

theorem parseSemiColonW_error {s : List Tok} {e : ParseError}
    (h : parseSemiColonW s = .error e) : e = ⟨ErrTag.semiExpected, s⟩ := by
  unfold parseSemiColonW at h
  split at h
  · exact Except.noConfusion h
  · exact (Except.error.inj h).symm

/-- Claim C3: a parse either succeeds, or fails with exactly the error
produced by one of the mandatory sub-parses (type, identifier,
terminator), tagged with that sub-grammar and carrying the cursor
position at the point of failure; the optional sub-parses are total
and never cause a failure. -/
theorem claim_c3_failure_characterization (input : List Tok) :
    (∃ s m, DictionaryMember.parse weedleC input = .ok (s, m)) ∨
    (∃ s,
      (DictionaryMember.parse weedleC input = .error ⟨ErrTag.typeExpected, s⟩ ∧
        parseTypeW s = .error ⟨ErrTag.typeExpected, s⟩) ∨
      (DictionaryMember.parse weedleC input = .error ⟨ErrTag.identExpected, s⟩ ∧
        parseIdentifierW s = .error ⟨ErrTag.identExpected, s⟩) ∨
      (DictionaryMember.parse weedleC input = .error ⟨ErrTag.semiExpected, s⟩ ∧
        parseSemiColonW s = .error ⟨ErrTag.semiExpected, s⟩)) := by
  rcases parse_cases weedleC input with hOk | ⟨s, e, hE, hsub⟩
  · exact Or.inl hOk
  · refine Or.inr ⟨s, ?_⟩
    rcases hsub with hT | hI | hS
    · have he := parseTypeW_error hT
      subst he
      exact Or.inl ⟨hE, hT⟩
    · have he := parseIdentifierW_error hI
      subst he
      exact Or.inr (Or.inl ⟨hE, hI⟩)
    · have he := parseSemiColonW_error hS
      subst he
      exact Or.inr (Or.inr ⟨hE, hS⟩)

/-- Claim C5: every input of the shape `required T id;` parses
successfully into a member with the required marker present,
attributes absent and default absent. -/
theorem claim_c5_required_member (tyv idv : String) :
    DictionaryMember.parse weedleC
        [Tok.kwRequired, Tok.ident tyv, Tok.ident idv, Tok.semi] =
      .ok ([], { attributes := none, required := some (), type_ := tyv,
                 identifier := idv, default := none, semi_colon := () }) := rfl

/-- Claim C6: on the optional path, `T id;` parses with required and
default absent; `T id = V;` parses with default equal to the parsed
value; and `[A] T id;` parses with attributes equal to the
member-level list. -/
theorem claim_c6_optional_member_forms :
    (∀ tyv idv : String,
      DictionaryMember.parse weedleC [Tok.ident tyv, Tok.ident idv, Tok.semi] =
        .ok ([], { attributes := none, required := none, type_ := tyv,
                   identifier := idv, default := none, semi_colon := () })) ∧
    (∀ tyv idv v : String,
      DictionaryMember.parse weedleC
          [Tok.ident tyv, Tok.ident idv, Tok.eq, Tok.ident v, Tok.semi] =
        .ok ([], { attributes := none, required := none, type_ := tyv,
                   identifier := idv, default := some v, semi_colon := () })) ∧
    (∀ a tyv idv : String,
      DictionaryMember.parse weedleC
          [Tok.lbrack, Tok.ident a, Tok.rbrack, Tok.ident tyv, Tok.ident idv, Tok.semi] =
        .ok ([], { attributes := some [a], required := none, type_ := tyv,
                   identifier := idv, default := none, semi_colon := () })) :=
  ⟨fun _ _ => rfl, fun _ _ _ => rfl, fun _ _ _ => rfl⟩

/-- Claim C9: an input `required T id = V;` is rejected: the required
path has no default sub-parse, so the terminator parse fails at the
position of the `=` token with a terminator-expected error. -/
theorem claim_c9_required_default_rejected (tyv idv v : String) :
    DictionaryMember.parse weedleC
        [Tok.kwRequired, Tok.ident tyv, Tok.ident idv, Tok.eq, Tok.ident v, Tok.semi] =
      .error ⟨ErrTag.semiExpected, [Tok.eq, Tok.ident v, Tok.semi]⟩ := rfl

theorem parseAttrNames_write (names : List String) (k : List Tok) :
    parseAttrNames (writeAttrNames names ++ Tok.rbrack :: k) = some (k, names) := by
  induction names with
  | nil => rfl
  | cons a rest ih =>
    cases rest with
    | nil => rfl
    | cons b t => simp [writeAttrNames, parseAttrNames, ih]

theorem parseOptAttrsW_write (a : Option (List String)) (k : List Tok)
    (hk : ∀ r, k ≠ Tok.lbrack :: r) :
    parseOptAttrsW (writeOptAttrs a ++ k) = (k, a) := by
  cases a with
  | none =>
    cases k with
    | nil => rfl
    | cons x r =>
      cases x
      case lbrack => exact absurd rfl (hk r)
      all_goals rfl
  | some names =>
    have h1 : writeOptAttrs (some names) ++ k =
        Tok.lbrack :: (writeAttrNames names ++ Tok.rbrack :: k) := by
      simp [writeOptAttrs]
    rw [h1]
    simp [parseOptAttrsW, parseAttrNames_write]

/-- Any member satisfying the structural invariant of a parse result
(required present implies default absent) re-parses from its own
serialization to itself, consuming it entirely. -/
theorem parse_writeMember (m : WMember)
    (hm : m.required.isSome = true → m.default = none) :
    DictionaryMember.parse weedleC (writeMember m) = .ok ([], m) := by
  obtain ⟨ma, r, tyv, idv, d, sc⟩ := m
  cases sc
  cases r with
  | some u =>
    cases u
    have hd : d = none := hm rfl
    subst hd
    have hA : weedleC.parseOptAttrs
        (writeMember ⟨ma, some (), tyv, idv, none, ()⟩) =
        ([Tok.kwRequired, Tok.ident tyv, Tok.ident idv, Tok.semi], ma) := by
      have hw : writeMember ⟨ma, some (), tyv, idv, none, ()⟩ =
          writeOptAttrs ma ++
            [Tok.kwRequired, Tok.ident tyv, Tok.ident idv, Tok.semi] := by
        simp [writeMember]
      rw [hw]
      exact parseOptAttrsW_write ma _ (by intro r h; simp at h)
    exact parse_ok_required weedleC hA rfl rfl rfl rfl rfl
  | none =>
    cases d with
    | none =>
      have hA : weedleC.parseOptAttrs
          (writeMember ⟨ma, none, tyv, idv, none, ()⟩) =
          ([Tok.ident tyv, Tok.ident idv, Tok.semi], ma) := by
        have hw : writeMember ⟨ma, none, tyv, idv, none, ()⟩ =
            writeOptAttrs ma ++ [Tok.ident tyv, Tok.ident idv, Tok.semi] := by
          simp [writeMember]
        rw [hw]
        exact parseOptAttrsW_write ma _ (by intro r h; simp at h)
      exact parse_ok_optional weedleC hA rfl rfl rfl rfl rfl
    | some v =>
      have hA : weedleC.parseOptAttrs
          (writeMember ⟨ma, none, tyv, idv, some v, ()⟩) =
          ([Tok.ident tyv, Tok.ident idv, Tok.eq, Tok.ident v, Tok.semi], ma) := by
        have hw : writeMember ⟨ma, none, tyv, idv, some v, ()⟩ =
            writeOptAttrs ma ++
              [Tok.ident tyv, Tok.ident idv, Tok.eq, Tok.ident v, Tok.semi] := by
          simp [writeMember]
        rw [hw]
        exact parseOptAttrsW_write ma _ (by intro r h; simp at h)
      exact parse_ok_optional weedleC hA rfl rfl rfl rfl rfl

/-- Claim C10: every successfully parsed member, re-serialized span by
span in declaration order with its original separators, parses again
to a structurally equal member (consuming the whole serialization). -/
theorem claim_c10_roundtrip {input s : List Tok} {m : WMember}
    (h : DictionaryMember.parse weedleC input = .ok (s, m)) :
    DictionaryMember.parse weedleC (writeMember m) = .ok ([], m) :=
  parse_writeMember m (parse_required_default_none weedleC input h)

theorem claim_c10_witness :
    DictionaryMember.parse weedleC
        (writeMember { attributes := some ["A"], required := none, type_ := "long",
                       identifier := "num", default := some "5", semi_colon := () }) =
      .ok ([], { attributes := some ["A"], required := none, type_ := "long",
                 identifier := "num", default := some "5", semi_colon := () }) :=
  claim_c10_roundtrip
    (show DictionaryMember.parse weedleC
        [Tok.lbrack, Tok.ident "A", Tok.rbrack, Tok.ident "long",
         Tok.ident "num", Tok.eq, Tok.ident "5", Tok.semi] =
      .ok ([], { attributes := some ["A"], required := none, type_ := "long",
                 identifier := "num", default := some "5", semi_colon := () }) from rfl)

end Weedle.Model
